import Mathlib

/-!
Shallow embedding of the WhatsApp Business messaging backend
(`src/whatsapp.ts`, the auth module, and the `DatabaseStorage` storage
backend found after the document separator in `src/routes.ts`) and proofs of
the spec's claims about it.

Conventions of the embedding:
* TypeScript strings are Lean `String`; `toLowerCase` is `jsToLower`
  (accurate on the ASCII range used by the keyword tables).
* JavaScript `String.prototype.includes` is `jsIncludes` below.
* Machine-generated database ids are `Nat`, drawn from a fresh-id counter in
  the store model.
* Network effects (`fetch` to the provider API) are modelled by an explicit
  oracle argument describing the provider's answer; wall-clock reads
  (`Date.now()`, `new Date()`) are explicit `Nat` arguments.
* Fallible TypeScript code that `throw`s is embedded in `Except String`;
  code that cannot throw is a total Lean function.
-/

namespace WhatsAppBot

/-- JavaScript `toLowerCase`, modelled as character-wise `Char.toLower`
(accurate on the ASCII range the keyword tables draw from). -/
def jsToLower (s : String) : String := ⟨s.data.map Char.toLower⟩

/-- JavaScript `hay.includes(needle)` on the underlying character lists:
`true` iff `needle` occurs as a contiguous substring of `hay`
(the empty needle is always found, as in JS). -/
def hasInfix (needle : List Char) : List Char → Bool
  | [] => needle.isEmpty
  | c :: t => needle.isPrefixOf (c :: t) || hasInfix needle t

/-- JavaScript `hay.includes(needle)` on strings. -/
def jsIncludes (hay needle : String) : Bool :=
  hasInfix needle.data hay.data

/-! ## Messaging gateway (`WhatsAppService.sendMessage` / `sendTextMessage`) -/

/-- Result object of a gateway send call:
`{ success: boolean; messageId?: string; error?: string }`. -/
structure SendResult where
  success : Bool
  messageId : Option String := none
  error : Option String := none
  deriving Repr, DecidableEq

/-- Outcome of the single `fetch` POST to the provider, as seen by
`sendMessage`: either the fetch/json chain threw (`exn`, carrying
`error.message` when the thrown value was an `Error`), or a response arrived
with its `ok` flag, optional `data.error.message` and optional
`data.messages[0].id`. -/
inductive NetOutcome where
  | exn (message : Option String)
  | resp (ok : Bool) (errorMessage : Option String) (firstMessageId : Option String)
  deriving Repr, DecidableEq

def credentialsNotConfiguredMsg : String := "WhatsApp credentials not configured"
def failedToSendMsg : String := "Failed to send message"
def unknownErrorMsg : String := "Unknown error"

/-- `WhatsAppService.validateCredentials`: `!!(this.accessToken && this.phoneNumberId)`.
JavaScript truthiness: a `null` (here `none`) or empty-string token is falsy. -/
def validateCredentials (accessToken phoneNumberId : Option String) : Bool :=
  accessToken.getD "" != "" && phoneNumberId.getD "" != ""

/-- `WhatsAppService.sendMessage`: guard on credentials, then one POST whose
outcome is `net`; every failure path returns `{success:false, error}`, only a
response with `ok` set yields `{success:true, messageId}`. Total: it never
throws. -/
def sendMessage (accessToken phoneNumberId : Option String) (net : NetOutcome) : SendResult :=
  if !validateCredentials accessToken phoneNumberId then
    { success := false, error := some credentialsNotConfiguredMsg }
  else
    match net with
    | .exn m => { success := false, error := some (m.getD unknownErrorMsg) }
    | .resp ok errMsg mid =>
      if !ok then { success := false, error := some (errMsg.getD failedToSendMsg) }
      else { success := true, messageId := mid }

/-- `WhatsAppService.sendTextMessage`: re-checks credentials, then delegates to
`sendMessage` with a text payload (the payload only affects the wire body,
which the `net` oracle already accounts for). Total: it never throws. -/
def sendTextMessage (accessToken phoneNumberId : Option String)
    (_to _text : String) (net : NetOutcome) : SendResult :=
  if !validateCredentials accessToken phoneNumberId then
    { success := false, error := some credentialsNotConfiguredMsg }
  else
    sendMessage accessToken phoneNumberId net

/-! ## Webhook handshake (`WhatsAppService.verifyWebhook`) -/

def subscribeMode : String := "subscribe"

/-- `WhatsAppService.verifyWebhook`: returns the challenge iff
`mode === "subscribe"` and the supplied token equals the configured
`VERIFY_TOKEN` (passed here explicitly as `configuredToken`). -/
def verifyWebhook (configuredToken verifyToken mode challenge : String) : Option String :=
  if mode == subscribeMode && verifyToken == configuredToken then
    some challenge
  else
    none

/-! ## Chatbot keyword tables (`ChatbotProcessor.generateResponse`) -/

/-- One per-template keyword table from the `templates` literal. A category a
template's object literal does not define is the empty list (JS `undefined`,
which makes `template.cat?.some(...)` evaluate to `undefined`, i.e. falsy). -/
structure TemplateTable where
  greetings : List String := []
  pricing : List String := []
  info : List String := []
  support : List String := []
  products : List String := []
  orders : List String := []
  shipping : List String := []
  returns : List String := []
  appointments : List String := []
  services : List String := []
  hours : List String := []
  emergency : List String := []
  deriving Repr, DecidableEq

def corporateTemplateName : String := "corporate"
def ecommerceTemplateName : String := "ecommerce"
def healthcareTemplateName : String := "healthcare"

def corporateTable : TemplateTable where
  greetings := ["hola", "buenos días", "buenas tardes", "buenas noches"]
  pricing := ["precio", "costo", "tarifa", "cuánto cuesta"]
  info := ["información", "info", "detalles", "más info"]
  support := ["ayuda", "soporte", "problema", "asistencia"]

def ecommerceTable : TemplateTable where
  products := ["productos", "catálogo", "qué venden", "disponible"]
  orders := ["pedido", "orden", "comprar", "ordenar"]
  shipping := ["envío", "entrega", "delivery", "tiempo"]
  returns := ["devolución", "cambio", "garantía", "reembolso"]

def healthcareTable : TemplateTable where
  appointments := ["cita", "turno", "consulta", "agenda"]
  services := ["servicios", "tratamientos", "especialidades"]
  hours := ["horario", "horarios", "cuándo", "abierto"]
  emergency := ["emergencia", "urgente", "urgencia"]

/-- The `templates[chatbot.template]` lookup: `none` for an unknown template. -/
def templates (t : String) : Option TemplateTable :=
  if t == corporateTemplateName then some corporateTable
  else if t == ecommerceTemplateName then some ecommerceTable
  else if t == healthcareTemplateName then some healthcareTable
  else none

def unknownTemplateResponse : String :=
  "Gracias por tu mensaje. Un representante se pondrá en contacto contigo pronto."

def defaultResponse : String :=
  "Gracias por tu mensaje. ¿Podrías ser más específico sobre lo que necesitas? Estoy aquí para ayudarte."

def greetingResponse (name : String) : String :=
  "¡Hola! Soy el asistente virtual de " ++ name ++ ". ¿En qué puedo ayudarte hoy?"

def corporatePricingResponse : String :=
  "Tenemos varios planes disponibles:\n\n📊 Plan Básico: $299/mes\n🚀 Plan Professional: $599/mes\n⭐ Plan Enterprise: $999/mes\n\n¿Te gustaría más información sobre algún plan específico?"

def corporateInfoResponse : String :=
  "Somos una empresa líder en soluciones empresariales. Ofrecemos servicios de consultoría, implementación y soporte técnico. ¿Sobre qué aspecto te gustaría saber más?"

def ecommerceProductsResponse : String :=
  "Contamos con un amplio catálogo de productos. Puedes ver todos nuestros productos en nuestro sitio web o pregúntame por una categoría específica. ¿Qué tipo de producto buscas?"

def ecommerceOrdersResponse : String :=
  "Para realizar un pedido puedes:\n1. Visitar nuestro sitio web\n2. Llamar al 123-456-7890\n3. Enviarme los detalles por aquí\n\n¿Cómo prefieres proceder?"

def healthcareAppointmentsResponse : String :=
  "Para agendar una cita puedes:\n📞 Llamar al 123-456-7890\n💻 Usar nuestro portal en línea\n📱 Enviarme tus datos aquí\n\nNuestros horarios: Lun-Vie 8:00-18:00, Sáb 8:00-14:00"

def healthcareEmergencyResponse : String :=
  "🚨 EMERGENCIA: Si tienes una emergencia médica, llama inmediatamente al 911 o dirígete al hospital más cercano.\n\nPara urgencias médicas no críticas: 123-456-7890"

/-- Chatbot record; the fields `generateResponse`, `shouldEscalateToHuman` and
`processBotResponse` consult. -/
structure Chatbot where
  id : Nat
  userId : Nat
  name : String
  template : String
  isActive : Bool
  deriving Repr, DecidableEq

/-- `ChatbotProcessor.generateResponse`: lower-case the message, look up the
per-template table (unknown template short-circuits to a generic line), check
greetings first, then the template-specific ordered keyword checks, and fall
through to the default line. The TypeScript return type is `string | null`,
hence `Option String`. -/
def generateResponse (chatbot : Chatbot) (messageContent : String) : Option String :=
  let content := jsToLower messageContent
  match templates chatbot.template with
  | none => some unknownTemplateResponse
  | some template =>
    if template.greetings.any (fun g => jsIncludes content g) then
      some (greetingResponse chatbot.name)
    else if chatbot.template == corporateTemplateName then
      if template.pricing.any (fun w => jsIncludes content w) then some corporatePricingResponse
      else if template.info.any (fun w => jsIncludes content w) then some corporateInfoResponse
      else some defaultResponse
    else if chatbot.template == ecommerceTemplateName then
      if template.products.any (fun w => jsIncludes content w) then some ecommerceProductsResponse
      else if template.orders.any (fun w => jsIncludes content w) then some ecommerceOrdersResponse
      else some defaultResponse
    else if chatbot.template == healthcareTemplateName then
      if template.appointments.any (fun w => jsIncludes content w) then some healthcareAppointmentsResponse
      else if template.emergency.any (fun w => jsIncludes content w) then some healthcareEmergencyResponse
      else some defaultResponse
    else
      some defaultResponse

/-- The greeting keywords the `template.greetings?.some(...)` check sees for a
given template name: only the corporate table defines `greetings`. -/
def greetingsOf (t : String) : List String :=
  match templates t with
  | none => []
  | some table => table.greetings

/-- The fixed escalation keyword list of `shouldEscalateToHuman`. -/
def escalationKeywords : List String :=
  ["hablar con persona", "agente humano", "representante", "supervisor",
   "queja", "reclamo", "problema serio", "no entiendo", "mal servicio"]

/-- `ChatbotProcessor.shouldEscalateToHuman(messageContent, chatbot)`: the
`chatbot` parameter is declared but never read by the body. -/
def shouldEscalateToHuman (messageContent : String) (_chatbot : Chatbot) : Bool :=
  escalationKeywords.any (fun k => jsIncludes (jsToLower messageContent) k)

/-! ## Data model and store

`src/whatsapp.ts` and the auth module call into `./storage`; its source,
`class DatabaseStorage implements IStorage` with
`export const storage = new DatabaseStorage()`, is the second document of
`src/routes.ts` (after the document separator, lines 395-697). Each method is
one drizzle query against a Postgres table; the embedding below models the
tables as row lists in insertion order:
* `const [x] = await db.select().from(T).where(cond)` is the first row
  satisfying the condition (`List.find?`);
* `db.insert(T).values(row).returning()` appends the row and returns it;
* `db.update(T).set(patch).where(eq(T.id, id)).returning()` patches every row
  with that id and returns the patched row — except that drizzle's
  `set(patch)` rejects a patch with no defined entries by throwing
  `No values to set` (inside `mapUpdateSet`) before the query reaches the
  database;
* Modelled from the spec: the column-default declarations of the schema
  module (`@shared/schema`, which is not under `src/`) — the DB-assigned
  unique ids behind `.returning()` are modelled by the `nextId` counter, and
  `isFromBot` (absent from the inserts) defaults to false, messages being
  tagged as bot-authored only by the later `updateMessage` call. -/

inductive Direction where
  | inbound
  | outbound
  deriving Repr, DecidableEq

/-- Message type union `"text" | "image" | "audio" | "video" | "document"`. -/
inductive MsgType where
  | text
  | image
  | audio
  | video
  | document
  deriving Repr, DecidableEq

structure Contact where
  id : Nat
  userId : Nat
  whatsappAccountId : Nat
  name : String
  phone : String
  deriving Repr, DecidableEq

structure Conversation where
  id : Nat
  userId : Nat
  contactId : Nat
  whatsappAccountId : Nat
  unreadCount : Option Nat
  lastMessageAt : Option Nat
  deriving Repr, DecidableEq

structure Message where
  id : Nat
  conversationId : Nat
  contactId : Nat
  whatsappMessageId : Option String
  direction : Direction
  type : MsgType
  content : String
  mediaUrl : Option String
  status : String
  isFromBot : Bool
  deriving Repr, DecidableEq

structure WhatsappAccount where
  id : Nat
  userId : Nat
  deriving Repr, DecidableEq

structure BotInteraction where
  id : Nat
  chatbotId : Nat
  contactId : Nat
  messageId : Nat
  trigger : String
  response : String
  wasEscalated : Bool
  responseTime : Nat
  deriving Repr, DecidableEq

structure User where
  id : String
  email : Option String
  password : Option String
  role : String
  isActive : Bool
  lastLogin : Option Nat
  deriving Repr, DecidableEq

/-- The database state behind `DatabaseStorage`: one table (row list in
insertion order) per entity, plus the fresh-id counter standing for the
schema's DB-assigned ids. -/
structure Store where
  accounts : List WhatsappAccount
  contacts : List Contact
  conversations : List Conversation
  messages : List Message
  chatbots : List Chatbot
  interactions : List BotInteraction
  users : List User
  nextId : Nat
  deriving Repr, DecidableEq

/-- `DatabaseStorage.getWhatsappAccount` (`routes.ts:497-500`): select the
first account row with the id. -/
def getWhatsappAccount (st : Store) (id : Nat) : Option WhatsappAccount :=
  st.accounts.find? (fun a => a.id == id)

/-- `DatabaseStorage.getContactByPhone` (`routes.ts:527-531`): select the
first contact row matching `and(eq(phone), eq(userId))`. -/
def getContactByPhone (st : Store) (phone : String) (userId : Nat) : Option Contact :=
  st.contacts.find? (fun c => c.phone == phone && c.userId == userId)

/-- `DatabaseStorage.getContact` (`routes.ts:516-519`): select the first
contact row with the id. -/
def getContact (st : Store) (id : Nat) : Option Contact :=
  st.contacts.find? (fun c => c.id == id)

/-- `DatabaseStorage.createContact` (`routes.ts:533-536`): insert the row
(id from the schema default, modelled by the counter) and return it. -/
def createContact (st : Store) (userId whatsappAccountId : Nat) (name phone : String) :
    Contact × Store :=
  let c : Contact :=
    { id := st.nextId, userId := userId, whatsappAccountId := whatsappAccountId,
      name := name, phone := phone }
  (c, { st with contacts := st.contacts ++ [c], nextId := st.nextId + 1 })

/-- The error drizzle's `mapUpdateSet` throws for an update with no defined
values. -/
def noValuesToSetMsg : String := "No values to set"

/-- `DatabaseStorage.updateContact` (`routes.ts:538-541`) at its only call,
`storage.updateContact(contact.id, {})` (`whatsapp.ts:134`): drizzle's
`update(contacts).set({})` throws `No values to set` (in `mapUpdateSet`)
before the query reaches the database, so the call always rejects and the
store is untouched. -/
def updateContactEmptyPatch (st : Store) (_id : Nat) : Except String Contact × Store :=
  (.error noValuesToSetMsg, st)

/-- `DatabaseStorage.getConversationByContact` (`routes.ts:554-558`): select
the first conversation row with the contact id. -/
def getConversationByContact (st : Store) (contactId : Nat) : Option Conversation :=
  st.conversations.find? (fun v => v.contactId == contactId)

/-- `DatabaseStorage.getConversation` (`routes.ts:543-546`): select the first
conversation row with the id. -/
def getConversation (st : Store) (id : Nat) : Option Conversation :=
  st.conversations.find? (fun v => v.id == id)

/-- `DatabaseStorage.createConversation` (`routes.ts:560-563`): insert the
row (id from the schema default, modelled by the counter) and return it. -/
def createConversation (st : Store) (userId contactId whatsappAccountId : Nat)
    (unreadCount : Option Nat) : Conversation × Store :=
  let v : Conversation :=
    { id := st.nextId, userId := userId, contactId := contactId,
      whatsappAccountId := whatsappAccountId, unreadCount := unreadCount,
      lastMessageAt := none }
  (v, { st with conversations := st.conversations ++ [v], nextId := st.nextId + 1 })

/-- Patch object for `DatabaseStorage.updateConversation`: only the fields
the service ever sends (`{unreadCount}` at `whatsapp.ts:148-150`,
`{lastMessageAt}` at `whatsapp.ts:219-221`) — both patches are non-empty, so
drizzle's empty-set rejection never fires here. -/
structure ConversationPatch where
  unreadCount : Option Nat := none
  lastMessageAt : Option Nat := none
  deriving Repr, DecidableEq

def applyConversationPatch (p : ConversationPatch) (v : Conversation) : Conversation :=
  { v with
    unreadCount := match p.unreadCount with | none => v.unreadCount | some u => some u
    lastMessageAt := match p.lastMessageAt with | none => v.lastMessageAt | some t => some t }

/-- `DatabaseStorage.updateConversation` (`routes.ts:565-568`): patch every
row with the given id and return the patched row via `.returning()`. Both
call sites pass the id of the row they just fetched; that row is carried here
explicitly so the returned row needs no `Option`. -/
def updateConversationRow (st : Store) (row : Conversation) (p : ConversationPatch) :
    Conversation × Store :=
  let updated := applyConversationPatch p row
  (updated,
   { st with conversations :=
      st.conversations.map (fun v => if v.id == row.id then updated else v) })

/-- `DatabaseStorage.createMessage` (`routes.ts:581-584`): insert the row
(id from the schema default, modelled by the counter; `isFromBot` is absent
from both inserts at `whatsapp.ts:173-182` and `206-214`, so it takes the
schema default, modelled from the spec as false) and return it. -/
def createMessage (st : Store) (conversationId contactId : Nat)
    (whatsappMessageId : Option String) (direction : Direction) (type : MsgType)
    (content : String) (mediaUrl : Option String) (status : String) :
    Message × Store :=
  let m : Message :=
    { id := st.nextId, conversationId := conversationId, contactId := contactId,
      whatsappMessageId := whatsappMessageId, direction := direction, type := type,
      content := content, mediaUrl := mediaUrl, status := status, isFromBot := false }
  (m, { st with messages := st.messages ++ [m], nextId := st.nextId + 1 })

/-- `DatabaseStorage.updateMessage` (`routes.ts:586-589`) at its only call,
`storage.updateMessage(botMessage.id, {isFromBot: true})`
(`whatsapp.ts:270`): the patch is non-empty, so the rows with that id are
patched and the patched row returned (the caller discards it). The row just
created is carried here explicitly. -/
def updateMessageIsFromBot (st : Store) (row : Message) (isFromBot : Bool) :
    Message × Store :=
  let updated := { row with isFromBot := isFromBot }
  (updated,
   { st with messages := st.messages.map (fun m => if m.id == row.id then updated else m) })

/-- `DatabaseStorage.getChatbot` (`routes.ts:591-594`): select the first
chatbot row with the id. -/
def getChatbot (st : Store) (id : Nat) : Option Chatbot :=
  st.chatbots.find? (fun b => b.id == id)

/-- `DatabaseStorage.createBotInteraction` (`routes.ts:610-613`): insert the
row (id from the schema default, modelled by the counter) and return it. -/
def createBotInteraction (st : Store) (chatbotId contactId messageId : Nat)
    (trigger response : String) (wasEscalated : Bool) (responseTime : Nat) :
    BotInteraction × Store :=
  let r : BotInteraction :=
    { id := st.nextId, chatbotId := chatbotId, contactId := contactId,
      messageId := messageId, trigger := trigger, response := response,
      wasEscalated := wasEscalated, responseTime := responseTime }
  (r, { st with interactions := st.interactions ++ [r], nextId := st.nextId + 1 })

/-- Incoming webhook message (`IncomingWhatsAppMessage`); `msgFrom` embeds the
TypeScript field `from`, and per-type media ids embed the `id` fields of the
optional `image`/`audio`/`video`/`document` payloads. -/
structure IncomingWhatsAppMessage where
  msgFrom : String
  id : String
  timestamp : String
  type : MsgType
  text : Option String := none
  imageId : Option String := none
  audioId : Option String := none
  videoId : Option String := none
  documentId : Option String := none
  deriving Repr, DecidableEq

/-- The `(incomingMessage as any)[incomingMessage.type]?.id` dynamic lookup. -/
def mediaIdOf (im : IncomingWhatsAppMessage) : Option String :=
  match im.type with
  | .text => none
  | .image => im.imageId
  | .audio => im.audioId
  | .video => im.videoId
  | .document => im.documentId

/-- The `content` computed by the switch on `incomingMessage.type`. -/
def incomingContent (im : IncomingWhatsAppMessage) : String :=
  match im.type with
  | .text => im.text.getD ""
  | .image => "[IMAGE]"
  | .audio => "[AUDIO]"
  | .video => "[VIDEO]"
  | .document => "[DOCUMENT]"

/-- The `mediaUrl` of the switch: calls `getMediaUrl` (modelled by the
`fetchMediaUrl` oracle) only when the media id is truthy (present and
non-empty). -/
def incomingMediaUrl (fetchMediaUrl : String → Option String)
    (im : IncomingWhatsAppMessage) : Option String :=
  match mediaIdOf im with
  | none => none
  | some mid => if mid == "" then none else fetchMediaUrl mid

def accountNotFoundMsg : String := "WhatsApp account not found"
def contactNotFoundMsg : String := "Contact not found"
def statusDelivered : String := "delivered"
def statusSent : String := "sent"

/-- The find-or-create contact step of `processIncomingMessage`
(`whatsapp.ts:124-135`): create on miss (using the phone as initial name); on
a hit the code calls `storage.updateContact(contact.id, {})` (under the
comment `// Update last message time`), whose empty patch drizzle rejects, so
this step throws for every already-known contact. -/
def resolveContact (st : Store) (whatsappAccountId userId : Nat) (phone : String) :
    Except String Contact × Store :=
  match getContactByPhone st phone userId with
  | none =>
    let cs := createContact st userId whatsappAccountId phone phone
    (.ok cs.1, cs.2)
  | some c => updateContactEmptyPatch st c.id

/-- The find-or-create conversation step of `processIncomingMessage`
(`whatsapp.ts:138-151`): create with `unreadCount: 1` on miss, increment
`(unreadCount || 0) + 1` on hit. -/
def resolveConversation (st : Store) (userId contactId whatsappAccountId : Nat) :
    Conversation × Store :=
  match getConversationByContact st contactId with
  | none => createConversation st userId contactId whatsappAccountId (some 1)
  | some v =>
    updateConversationRow st v { unreadCount := some (v.unreadCount.getD 0 + 1) }

/-- The body of `processIncomingMessage` after the account lookup succeeded
with owner `userId`: contact step (whose throw propagates), conversation
step, message persistence. -/
def ingestForUser (fetchMediaUrl : String → Option String) (st : Store)
    (whatsappAccountId userId : Nat) (im : IncomingWhatsAppMessage) :
    Except String (Contact × Message × Conversation) × Store :=
  let cs := resolveContact st whatsappAccountId userId im.msgFrom
  match cs.1 with
  | .error e => (.error e, cs.2)
  | .ok contact =>
    let vs := resolveConversation cs.2 userId contact.id whatsappAccountId
    let ms :=
      createMessage vs.2 vs.1.id contact.id (some im.id) .inbound im.type
        (incomingContent im) (incomingMediaUrl fetchMediaUrl im) statusDelivered
    (.ok (contact, ms.1, vs.1), ms.2)

/-- `WhatsAppService.processIncomingMessage`: look up the account (throwing if
absent), resolve-or-create the contact by phone, resolve-or-create the
conversation (initial unread 1, otherwise incremented), compute content and
media URL, and persist the inbound message with status `delivered`. The
returned store is the store at the point of return or throw. -/
def processIncomingMessage (fetchMediaUrl : String → Option String) (st : Store)
    (whatsappAccountId : Nat) (im : IncomingWhatsAppMessage) :
    Except String (Contact × Message × Conversation) × Store :=
  match getWhatsappAccount st whatsappAccountId with
  | none => (.error accountNotFoundMsg, st)
  | some whatsappAccount =>
    ingestForUser fetchMediaUrl st whatsappAccountId whatsappAccount.userId im

/-- The tail of `processOutgoingMessage`: `getConversation` followed by the
guarded `updateConversation({lastMessageAt: new Date()})`. -/
def touchConversation (st : Store) (conversationId now : Nat) : Store :=
  match getConversation st conversationId with
  | none => st
  | some conv => (updateConversationRow st conv { lastMessageAt := some now }).2

/-- `WhatsAppService.processOutgoingMessage`: fetch the contact (throwing if
absent), send via the gateway (throwing on `{success:false}` before any store
write), then persist the outbound message with status `sent` and the provider
message id, and touch the conversation's `lastMessageAt` (`now` models
`new Date()`). -/
def processOutgoingMessage (accessToken phoneNumberId : Option String)
    (net : NetOutcome) (now : Nat) (st : Store) (conversationId contactId : Nat)
    (content : String) (type : MsgType) : Except String Message × Store :=
  match getContact st contactId with
  | none => (.error contactNotFoundMsg, st)
  | some contact =>
    let result := sendTextMessage accessToken phoneNumberId contact.phone content net
    if !result.success then
      (.error ("Failed to send WhatsApp message: " ++ result.error.getD "undefined"), st)
    else
      let ms :=
        createMessage st conversationId contactId result.messageId .outbound type
          content none statusSent
      (.ok ms.1, touchConversation ms.2 conversationId now)

def escalationSuffix : String :=
  "\n\nUn agente humano se pondrá en contacto contigo pronto."

/-- `ChatbotProcessor.processBotResponse`: bail out (returning `false`) when
the chatbot is missing or inactive or no response is generated; otherwise
append the handoff suffix when escalating, send the reply through
`processOutgoingMessage` (whose throw propagates), tag the sent message as
bot-authored, and record the interaction. `t0` and `t1` model the two
`Date.now()` reads, `now` the `new Date()` inside the outgoing path. -/
def processBotResponse (accessToken phoneNumberId : Option String)
    (net : NetOutcome) (t0 t1 now : Nat) (st : Store) (chatbotId : Nat)
    (contact : Contact) (message : Message) (conversation : Conversation) :
    Except String Bool × Store :=
  match getChatbot st chatbotId with
  | none => (.ok false, st)
  | some chatbot =>
    if !chatbot.isActive then (.ok false, st)
    else
      match generateResponse chatbot message.content with
      | none => (.ok false, st)
      | some response0 =>
        let shouldEscalate := shouldEscalateToHuman message.content chatbot
        let response := if shouldEscalate then response0 ++ escalationSuffix else response0
        let out := processOutgoingMessage accessToken phoneNumberId net now st
            conversation.id contact.id response .text
        match out.1 with
        | .error e => (.error e, out.2)
        | .ok botMessage =>
          let st2 := (updateMessageIsFromBot out.2 botMessage true).2
          let st3 :=
            (createBotInteraction st2 chatbotId contact.id message.id
              message.content response shouldEscalate (t1 - t0)).2
          (.ok true, st3)

/-! ## Auth module (`loginWithEmail`, `generateToken`, `verifyToken`) -/

/-- A signed token as produced by the `jsonwebtoken` library, modelled as the
signed payload together with a secret-keyed signature. -/
structure JwtToken where
  payload : String
  sig : String
  deriving Repr, DecidableEq

/-- Model of the library's secret-keyed signature over a payload (injective in
the payload for a fixed secret, as a MAC is). -/
def jwtSignature (secret payload : String) : String :=
  secret ++ ":" ++ payload

/-- `verifyToken(token)`: `jwt.verify` returns the signed payload when the
signature checks out under the secret, and the `catch` turns any verification
failure into `null`. -/
def verifyToken (secret : String) (token : JwtToken) : Option String :=
  if token.sig == jwtSignature secret token.payload then some token.payload
  else none

theorem resolveContact_of_none (st : Store) (aid uid : Nat) (phone : String)
    (h : getContactByPhone st phone uid = none) :
    resolveContact st aid uid phone =
      (.ok (createContact st uid aid phone phone).1,
        (createContact st uid aid phone phone).2) := by
  unfold resolveContact
  rw [h]

theorem resolveContact_of_some (st : Store) (aid uid : Nat) (phone : String)
    (c : Contact) (h : getContactByPhone st phone uid = some c) :
    resolveContact st aid uid phone = (.error noValuesToSetMsg, st) := by
  unfold resolveContact
  rw [h]
  rfl

theorem resolveConversation_of_none (st : Store) (uid cid aid : Nat)
    (h : getConversationByContact st cid = none) :
    resolveConversation st uid cid aid = createConversation st uid cid aid (some 1) := by
  unfold resolveConversation
  rw [h]

theorem resolveConversation_of_some (st : Store) (uid cid aid : Nat)
    (v : Conversation) (h : getConversationByContact st cid = some v) :
    resolveConversation st uid cid aid =
      updateConversationRow st v { unreadCount := some (v.unreadCount.getD 0 + 1) } := by
  unfold resolveConversation
  rw [h]

theorem processIncoming_of_acct (fetch : String → Option String) (st : Store)
    (aid : Nat) (acct : WhatsappAccount) (im : IncomingWhatsAppMessage)
    (h : getWhatsappAccount st aid = some acct) :
    processIncomingMessage fetch st aid im = ingestForUser fetch st aid acct.userId im := by
  unfold processIncomingMessage
  rw [h]

theorem touchConversation_messages (st : Store) (conversationId now : Nat) :
    (touchConversation st conversationId now).messages = st.messages := by
  unfold touchConversation
  cases getConversation st conversationId <;> rfl

theorem touchConversation_contacts (st : Store) (conversationId now : Nat) :
    (touchConversation st conversationId now).contacts = st.contacts := by
  unfold touchConversation
  cases getConversation st conversationId <;> rfl

theorem touchConversation_interactions (st : Store) (conversationId now : Nat) :
    (touchConversation st conversationId now).interactions = st.interactions := by
  unfold touchConversation
  cases getConversation st conversationId <;> rfl

/-- The row `createMessage` inserts for the outbound path of
`processOutgoingMessage` (abbreviation used by the lemmas below). -/
def outboundRecord (st : Store) (conversationId contactId : Nat)
    (mid : Option String) (content : String) (type : MsgType) : Message :=
  { id := st.nextId, conversationId := conversationId, contactId := contactId,
    whatsappMessageId := mid, direction := .outbound, type := type,
    content := content, mediaUrl := none, status := statusSent, isFromBot := false }

theorem processOutgoing_success_eq (a p : Option String) (e mid : Option String)
    (now : Nat) (st : Store) (conversationId contactId : Nat) (content : String)
    (type : MsgType) (ct : Contact)
    (hct : getContact st contactId = some ct)
    (hcred : validateCredentials a p = true) :
    processOutgoingMessage a p (NetOutcome.resp true e mid) now st conversationId
        contactId content type =
      (.ok (outboundRecord st conversationId contactId mid content type),
       touchConversation
         { st with
           messages := st.messages ++
             [outboundRecord st conversationId contactId mid content type],
           nextId := st.nextId + 1 }
         conversationId now) := by
  unfold processOutgoingMessage
  rw [hct]
  have hsend : sendTextMessage a p ct.phone content (NetOutcome.resp true e mid) =
      { success := true, messageId := mid, error := none } := by
    unfold sendTextMessage sendMessage
    simp [hcred]
  simp only [hsend, Bool.not_true, Bool.false_eq_true, if_false, createMessage,
    outboundRecord]

theorem ingest_new_contact_new_conv (fetch : String → Option String) (st : Store)
    (aid uid : Nat) (im : IncomingWhatsAppMessage)
    (hct : getContactByPhone st im.msgFrom uid = none)
    (hcv : getConversationByContact st st.nextId = none) :
    ingestForUser fetch st aid uid im =
      (.ok
        ({ id := st.nextId, userId := uid, whatsappAccountId := aid,
           name := im.msgFrom, phone := im.msgFrom },
         { id := st.nextId + 2, conversationId := st.nextId + 1, contactId := st.nextId,
           whatsappMessageId := some im.id, direction := .inbound, type := im.type,
           content := incomingContent im, mediaUrl := incomingMediaUrl fetch im,
           status := statusDelivered, isFromBot := false },
         { id := st.nextId + 1, userId := uid, contactId := st.nextId,
           whatsappAccountId := aid, unreadCount := some 1, lastMessageAt := none }),
       { st with
         contacts := st.contacts ++
           [{ id := st.nextId, userId := uid, whatsappAccountId := aid,
              name := im.msgFrom, phone := im.msgFrom }],
         conversations := st.conversations ++
           [{ id := st.nextId + 1, userId := uid, contactId := st.nextId,
              whatsappAccountId := aid, unreadCount := some 1, lastMessageAt := none }],
         messages := st.messages ++
           [{ id := st.nextId + 2, conversationId := st.nextId + 1,
              contactId := st.nextId, whatsappMessageId := some im.id,
              direction := .inbound, type := im.type, content := incomingContent im,
              mediaUrl := incomingMediaUrl fetch im, status := statusDelivered,
              isFromBot := false }],
         nextId := st.nextId + 3 }) := by
  unfold ingestForUser
  rw [resolveContact_of_none _ _ _ _ hct]
  unfold getConversationByContact at hcv
  simp only [createContact, resolveConversation, getConversationByContact, hcv,
    createConversation, createMessage]

theorem ingest_new_contact_old_conv (fetch : String → Option String) (st : Store)
    (aid uid : Nat) (im : IncomingWhatsAppMessage) (v0 : Conversation)
    (hct : getContactByPhone st im.msgFrom uid = none)
    (hcv : getConversationByContact st st.nextId = some v0) :
    ingestForUser fetch st aid uid im =
      (.ok
        ({ id := st.nextId, userId := uid, whatsappAccountId := aid,
           name := im.msgFrom, phone := im.msgFrom },
         { id := st.nextId + 1, conversationId := v0.id, contactId := st.nextId,
           whatsappMessageId := some im.id, direction := .inbound, type := im.type,
           content := incomingContent im, mediaUrl := incomingMediaUrl fetch im,
           status := statusDelivered, isFromBot := false },
         { v0 with unreadCount := some (v0.unreadCount.getD 0 + 1) }),
       { st with
         contacts := st.contacts ++
           [{ id := st.nextId, userId := uid, whatsappAccountId := aid,
              name := im.msgFrom, phone := im.msgFrom }],
         conversations := st.conversations.map (fun v =>
           if v.id == v0.id then { v0 with unreadCount := some (v0.unreadCount.getD 0 + 1) }
           else v),
         messages := st.messages ++
           [{ id := st.nextId + 1, conversationId := v0.id, contactId := st.nextId,
              whatsappMessageId := some im.id, direction := .inbound, type := im.type,
              content := incomingContent im, mediaUrl := incomingMediaUrl fetch im,
              status := statusDelivered, isFromBot := false }],
         nextId := st.nextId + 2 }) := by
  unfold ingestForUser
  rw [resolveContact_of_none _ _ _ _ hct]
  unfold getConversationByContact at hcv
  simp only [createContact, resolveConversation, getConversationByContact, hcv,
    updateConversationRow, applyConversationPatch, createMessage]

theorem ingest_existing_contact (fetch : String → Option String) (st : Store)
    (aid uid : Nat) (im : IncomingWhatsAppMessage) (c0 : Contact)
    (hct : getContactByPhone st im.msgFrom uid = some c0) :
    ingestForUser fetch st aid uid im = (.error noValuesToSetMsg, st) := by
  unfold ingestForUser
  rw [resolveContact_of_some _ _ _ _ _ hct]

theorem processIncoming_of_acct_none (fetch : String → Option String) (st : Store)
    (aid : Nat) (im : IncomingWhatsAppMessage)
    (h : getWhatsappAccount st aid = none) :
    processIncomingMessage fetch st aid im = (.error accountNotFoundMsg, st) := by
  unfold processIncomingMessage
  rw [h]

/-- The contact row the first inbound message from a fresh phone creates
(abbreviation for the record of `ingest_new_contact_new_conv`). -/
def firstContact (st0 : Store) (accountId uid : Nat) (phone : String) : Contact :=
  { id := st0.nextId, userId := uid, whatsappAccountId := accountId,
    name := phone, phone := phone }

/-- The conversation row that first inbound message creates (abbreviation for
the record of `ingest_new_contact_new_conv`). -/
def firstConv (st0 : Store) (accountId uid : Nat) : Conversation :=
  { id := st0.nextId + 1, userId := uid, contactId := st0.nextId,
    whatsappAccountId := accountId, unreadCount := some 1, lastMessageAt := none }

/-! ## Concrete fixtures used by witnesses -/

def noFetch : String → Option String := fun _ => none

def demoStore : Store :=
  { accounts := [{ id := 2, userId := 7 }], contacts := [], conversations := [],
    messages := [], chatbots := [], interactions := [], users := [], nextId := 100 }

def demoIncoming : IncomingWhatsAppMessage :=
  { msgFrom := "5551234", id := "wamid.in1", timestamp := "0", type := .text,
    text := some "precio" }

def demoIncoming2 : IncomingWhatsAppMessage :=
  { msgFrom := "5551234", id := "wamid.in2", timestamp := "1", type := .text,
    text := some "más info" }

def demoContact : Contact :=
  { id := 100, userId := 7, whatsappAccountId := 2, name := "5551234",
    phone := "5551234" }

def demoConv : Conversation :=
  { id := 101, userId := 7, contactId := 100, whatsappAccountId := 2,
    unreadCount := some 1, lastMessageAt := none }

def demoMsg : Message :=
  { id := 102, conversationId := 101, contactId := 100,
    whatsappMessageId := some "wamid.in1", direction := .inbound, type := .text,
    content := "precio", mediaUrl := none, status := "delivered", isFromBot := false }

def demoOutContact : Contact :=
  { id := 5, userId := 1, whatsappAccountId := 2, name := "n", phone := "555" }

def demoKnownContact : Contact :=
  { id := 3, userId := 7, whatsappAccountId := 2, name := "5551234",
    phone := "5551234" }

def demoKnownConv : Conversation :=
  { id := 4, userId := 7, contactId := 3, whatsappAccountId := 2,
    unreadCount := some 1, lastMessageAt := none }

/-- A store in which the sender of `demoIncoming` is already a known contact
with an open conversation. -/
def demoStoreKnown : Store :=
  { accounts := [{ id := 2, userId := 7 }], contacts := [demoKnownContact],
    conversations := [demoKnownConv], messages := [], chatbots := [],
    interactions := [], users := [], nextId := 10 }

def demoBot : Chatbot :=
  { id := 9, userId := 7, name := "Acme", template := "corporate", isActive := true }

def demoBotStore : Store :=
  { accounts := [], contacts := [demoOutContact], conversations := [],
    messages := [], chatbots := [demoBot], interactions := [], users := [],
    nextId := 50 }

def demoInMsg : Message :=
  { id := 40, conversationId := 41, contactId := 5,
    whatsappMessageId := some "wamid.x", direction := .inbound, type := .text,
    content := "quiero hablar con persona, precio", mediaUrl := none,
    status := "delivered", isFromBot := false }

def demoConv2 : Conversation :=
  { id := 41, userId := 7, contactId := 5, whatsappAccountId := 2,
    unreadCount := some 1, lastMessageAt := none }

def demoStoreOut : Store :=
  { accounts := [], contacts := [demoOutContact],
    conversations := [], messages := [], chatbots := [], interactions := [],
    users := [], nextId := 6 }

/-! ## Theorems -/

/-- C2: `verifyWebhook` returns the challenge string iff the mode is
`"subscribe"` and the supplied token equals the configured verification
secret; in every other case it returns the rejection value `null`. -/
theorem verifyWebhook_challenge_iff (configuredToken vt mode ch : String) :
    (verifyWebhook configuredToken vt mode ch = some ch ↔
      (mode = subscribeMode ∧ vt = configuredToken)) ∧
    (¬ (mode = subscribeMode ∧ vt = configuredToken) →
      verifyWebhook configuredToken vt mode ch = none) := by
  by_cases hc : mode = subscribeMode ∧ vt = configuredToken
  · have hb : (mode == subscribeMode && vt == configuredToken) = true := by
      simp [hc.1, hc.2]
    simp [verifyWebhook, hb, hc]
  · have hb : (mode == subscribeMode && vt == configuredToken) = false := by
      rw [Bool.eq_false_iff]
      intro hbt
      refine hc ?_
      simpa using hbt
    simp [verifyWebhook, hb, hc]

/-- C2 witness: concrete instances of both directions of the handshake. -/
theorem verifyWebhook_challenge_iff_witness :
    verifyWebhook "mi_token_de_verificacion" "mi_token_de_verificacion" "subscribe" "ch42"
      = some "ch42" ∧
    verifyWebhook "mi_token_de_verificacion" "wrong" "subscribe" "ch42" = none := by
  refine ⟨?_, ?_⟩
  · exact (verifyWebhook_challenge_iff "mi_token_de_verificacion" "mi_token_de_verificacion"
      "subscribe" "ch42").1.mpr (by refine ⟨rfl, rfl⟩)
  · exact (verifyWebhook_challenge_iff "mi_token_de_verificacion" "wrong"
      "subscribe" "ch42").2 (by simp)

/-- C10: the escalation decision is independent of the chatbot argument and is
determined solely by whether the lowercased content contains one of the nine
fixed escalation keywords. -/
theorem shouldEscalate_independent_of_chatbot (m : String) (c1 c2 : Chatbot) :
    shouldEscalateToHuman m c1 = shouldEscalateToHuman m c2 ∧
    shouldEscalateToHuman m c1 =
      escalationKeywords.any (fun k => jsIncludes (jsToLower m) k) ∧
    escalationKeywords.length = 9 :=
  ⟨rfl, rfl, rfl⟩

/-- C8: the gateway send functions are total (they never throw): the result is
a success record iff the credentials validate and the provider responded `ok`;
every failure result carries an error string; `sendTextMessage` agrees with
`sendMessage` in all cases (its extra credential check returns the same error
record). -/
theorem sendMessage_never_throws (a p : Option String) (dest text : String)
    (net : NetOutcome) :
    ((sendMessage a p net).success = true ↔
      validateCredentials a p = true ∧ ∃ e m, net = NetOutcome.resp true e m) ∧
    ((sendMessage a p net).success = false →
      (sendMessage a p net).error.isSome = true) ∧
    sendTextMessage a p dest text net = sendMessage a p net ∧
    ((sendMessage a p net).success = true → (sendMessage a p net).error = none) := by
  have hT : sendTextMessage a p dest text net = sendMessage a p net := by
    unfold sendTextMessage sendMessage
    cases hv : validateCredentials a p <;> simp [hv]
  refine ⟨?_, ?_, hT, ?_⟩
  · cases hv : validateCredentials a p <;> cases net with
    | exn m => simp [sendMessage, hv]
    | resp ok e m =>
      cases ok <;> simp [sendMessage, hv]
  · cases hv : validateCredentials a p <;> cases net with
    | exn m => simp [sendMessage, hv]
    | resp ok e m => cases ok <;> simp [sendMessage, hv]
  · cases hv : validateCredentials a p <;> cases net with
    | exn m => simp [sendMessage, hv]
    | resp ok e m => cases ok <;> simp [sendMessage, hv]

/-- C8 witness: concrete failure (unconfigured, provider error, network
exception) and success results. -/
theorem sendMessage_never_throws_witness :
    (sendMessage none none (NetOutcome.resp true none (some "wamid.1"))).success = false ∧
    (sendMessage none none (NetOutcome.resp true none (some "wamid.1"))).error.isSome = true ∧
    (sendMessage (some "tok") (some "606") (NetOutcome.resp false (some "bad") none)).error.isSome
      = true ∧
    (sendMessage (some "tok") (some "606") (NetOutcome.exn none)).error.isSome = true ∧
    (sendMessage (some "tok") (some "606") (NetOutcome.resp true none (some "wamid.1"))).success
      = true := by
  refine ⟨by decide, ?_, ?_, ?_, ?_⟩
  · exact (sendMessage_never_throws none none "x" "y"
      (NetOutcome.resp true none (some "wamid.1"))).2.1 (by decide)
  · exact (sendMessage_never_throws (some "tok") (some "606") "x" "y"
      (NetOutcome.resp false (some "bad") none)).2.1 (by decide)
  · exact (sendMessage_never_throws (some "tok") (some "606") "x" "y"
      (NetOutcome.exn none)).2.1 (by decide)
  · exact (sendMessage_never_throws (some "tok") (some "606") "x" "y"
      (NetOutcome.resp true none (some "wamid.1"))).1.mpr
      ⟨by decide, none, some "wamid.1", rfl⟩

/-- C5: whenever the lowercased text contains one of the greeting keywords the
`template.greetings?.some(...)` check sees for the chatbot's template, the
greeting response wins, regardless of any other keywords in the text. -/
theorem generateResponse_greeting_first (cb : Chatbot) (text : String)
    (h : (greetingsOf cb.template).any (fun g => jsIncludes (jsToLower text) g) = true) :
    generateResponse cb text = some (greetingResponse cb.name) := by
  unfold greetingsOf at h
  unfold generateResponse
  cases htmp : templates cb.template with
  | none => rw [htmp] at h; simp at h
  | some table =>
    rw [htmp] at h
    simp only [htmp, h, if_true]

/-- C5 witness: with template `corporate`, a text containing both the greeting
keyword `hola` and the pricing keyword `cuánto cuesta` gets the greeting
response. -/
theorem generateResponse_greeting_first_witness :
    generateResponse
      { id := 1, userId := 1, name := "Acme", template := "corporate", isActive := true }
      "Hola, ¿cuánto cuesta el plan?"
      = some (greetingResponse "Acme") ∧
    jsIncludes (jsToLower "Hola, ¿cuánto cuesta el plan?") "cuánto cuesta" = true := by
  refine ⟨?_, by decide⟩
  exact generateResponse_greeting_first
    { id := 1, userId := 1, name := "Acme", template := "corporate", isActive := true }
    "Hola, ¿cuánto cuesta el plan?" (by decide)

/-- Helper: `generateResponse` returns a string on every input (every branch
of the TypeScript function returns a literal). -/
theorem generateResponse_isSome (cb : Chatbot) (mc : String) :
    (generateResponse cb mc).isSome = true := by
  unfold generateResponse
  cases htmp : templates cb.template with
  | none => simp
  | some table =>
    simp only
    split
    · simp
    · split
      · split <;> [simp; skip]
        split <;> simp
      · split
        · split <;> [simp; skip]
          split <;> simp
        · split
          · split <;> [simp; skip]
            split <;> simp
          · simp

/-- C9: `generateResponse` returns a string for every chatbot and text, so the
no-response early exit of `processBotResponse` is unreachable: a run that
returns `false` can only come from a missing or inactive chatbot. -/
theorem botResponse_false_only_when_bot_missing_or_inactive :
    (∀ (cb : Chatbot) (mc : String), (generateResponse cb mc).isSome = true) ∧
    (∀ (a p : Option String) (net : NetOutcome) (t0 t1 now : Nat) (st : Store)
      (chatbotId : Nat) (contact : Contact) (message : Message)
      (conversation : Conversation),
      (processBotResponse a p net t0 t1 now st chatbotId contact message
          conversation).1 = .ok false →
      getChatbot st chatbotId = none ∨
        ∃ cb, getChatbot st chatbotId = some cb ∧ cb.isActive = false) := by
  refine ⟨generateResponse_isSome, ?_⟩
  intro a p net t0 t1 now st chatbotId contact message conversation hrun
  unfold processBotResponse at hrun
  cases hcb : getChatbot st chatbotId with
  | none => exact Or.inl rfl
  | some cb =>
    rw [hcb] at hrun
    cases hact : cb.isActive with
    | false =>
      exact Or.inr ⟨cb, rfl, hact⟩
    | true =>
      exfalso
      simp only [hact, Bool.not_true, Bool.false_eq_true, if_false] at hrun
      cases hresp : generateResponse cb message.content with
      | none =>
        have := generateResponse_isSome cb message.content
        rw [hresp] at this
        simp at this
      | some r =>
        rw [hresp] at hrun
        simp only at hrun
        rcases hout : processOutgoingMessage a p net now st conversation.id contact.id
            (if shouldEscalateToHuman message.content cb then r ++ escalationSuffix else r)
            .text with ⟨exc, st1⟩
        rw [hout] at hrun
        cases exc with
        | error e => simp at hrun
        | ok botMessage => simp at hrun

/-- C9 witness: with an inactive chatbot in the store, the run returns
`false`, and the disjunction of the theorem holds at that input. -/
theorem botResponse_false_witness :
    ((generateResponse
        { id := 3, userId := 1, name := "B", template := "zzz", isActive := false }
        "hey").isSome = true) ∧
    (getChatbot
        { accounts := [], contacts := [], conversations := [], messages := [],
          chatbots := [{ id := 3, userId := 1, name := "B", template := "zzz",
                         isActive := false }],
          interactions := [], users := [], nextId := 4 } 3 = none ∨
      ∃ cb, getChatbot
        { accounts := [], contacts := [], conversations := [], messages := [],
          chatbots := [{ id := 3, userId := 1, name := "B", template := "zzz",
                         isActive := false }],
          interactions := [], users := [], nextId := 4 } 3 = some cb ∧
        cb.isActive = false) := by
  refine ⟨?_, ?_⟩
  · exact botResponse_false_only_when_bot_missing_or_inactive.1
      { id := 3, userId := 1, name := "B", template := "zzz", isActive := false } "hey"
  · exact botResponse_false_only_when_bot_missing_or_inactive.2
      none none (NetOutcome.exn none) 0 0 0
      { accounts := [], contacts := [], conversations := [], messages := [],
        chatbots := [{ id := 3, userId := 1, name := "B", template := "zzz",
                       isActive := false }],
        interactions := [], users := [], nextId := 4 }
      3
      { id := 1, userId := 1, whatsappAccountId := 1, name := "c", phone := "5" }
      { id := 2, conversationId := 1, contactId := 1, whatsappMessageId := none,
        direction := .inbound, type := .text, content := "hey", mediaUrl := none,
        status := "delivered", isFromBot := false }
      { id := 1, userId := 1, contactId := 1, whatsappAccountId := 1,
        unreadCount := some 1, lastMessageAt := none }
      (by rfl)

/-- C1: with the target contact present, `processOutgoingMessage` persists an
outbound record iff the gateway send reports success: on `{success:false}` it
throws with the store untouched (no message row at all), and on
`{success:true}` exactly one outbound message with status `sent` and the
provider message id is appended. -/
theorem outgoing_persist_iff_send_success (a p : Option String) (net : NetOutcome)
    (now : Nat) (st : Store) (conversationId contactId : Nat) (content : String)
    (type : MsgType) (contact : Contact)
    (hc : getContact st contactId = some contact) :
    ((sendTextMessage a p contact.phone content net).success = false →
      processOutgoingMessage a p net now st conversationId contactId content type =
        (.error ("Failed to send WhatsApp message: " ++
          (sendTextMessage a p contact.phone content net).error.getD "undefined"), st)) ∧
    ((sendTextMessage a p contact.phone content net).success = true →
      ∃ m : Message,
        (processOutgoingMessage a p net now st conversationId contactId content type).1
          = .ok m ∧
        (processOutgoingMessage a p net now st conversationId contactId content type).2.messages
          = st.messages ++ [m] ∧
        m.direction = .outbound ∧ m.status = statusSent ∧
        m.whatsappMessageId = (sendTextMessage a p contact.phone content net).messageId ∧
        m.content = content ∧ m.conversationId = conversationId ∧
        m.contactId = contactId) := by
  constructor
  · intro hfail
    unfold processOutgoingMessage
    rw [hc]
    simp only [hfail, Bool.not_false, if_true]
  · intro hok
    unfold processOutgoingMessage
    rw [hc]
    simp only [hok, Bool.not_true, Bool.false_eq_true, if_false, createMessage]
    refine ⟨_, rfl, ?_, rfl, rfl, rfl, rfl, rfl, rfl⟩
    rw [touchConversation_messages]

/-- C4: the code contradicts the claim: an inbound message from an
already-known contact throws drizzle's `No values to set` at the empty-patch
`storage.updateContact(contact.id, {})` call, before the conversation step,
so that call increments no unread counter (evaluated on a concrete store with
the contact and its conversation present, which the run leaves untouched).
The parts of the claim the code does satisfy are also evaluated: a
fresh-contact inbound run initialises `unreadCount` to 1, and an outbound run
through the same store leaves every conversation's `(id, unreadCount)` pair
unchanged while touching only `lastMessageAt`. -/
theorem unread_increment_skipped_for_known_contact :
    (processIncomingMessage noFetch demoStoreKnown 2 demoIncoming).1
        = .error noValuesToSetMsg ∧
    (processIncomingMessage noFetch demoStoreKnown 2 demoIncoming).2
        = demoStoreKnown ∧
    (∃ c m v, (processIncomingMessage noFetch demoStore 2 demoIncoming).1
        = .ok (c, m, v) ∧ v.unreadCount = some 1) ∧
    (processOutgoingMessage (some "tok") (some "606") (NetOutcome.resp true none none)
        99 demoStoreKnown 4 3 "x" .text).2.conversations.map
        (fun v => (v.id, v.unreadCount))
      = demoStoreKnown.conversations.map (fun v => (v.id, v.unreadCount)) := by
  refine ⟨rfl, rfl, ⟨_, _, _, rfl, rfl⟩, by decide⟩

/-- C1 witness: with the contact present, a failed send leaves the store
untouched and a successful send appends exactly the one outbound `sent`
record. -/
theorem outgoing_persist_iff_send_success_witness :
    processOutgoingMessage (some "tok") (some "606") (NetOutcome.resp false none none) 0
        demoStoreOut 10 5 "hello" .text =
      (.error ("Failed to send WhatsApp message: " ++
        ((sendTextMessage (some "tok") (some "606") "555" "hello"
          (NetOutcome.resp false none none)).error.getD "undefined")), demoStoreOut) ∧
    ∃ m : Message,
      (processOutgoingMessage (some "tok") (some "606")
          (NetOutcome.resp true none (some "wamid.9")) 0 demoStoreOut 10 5 "hello"
          .text).1 = .ok m ∧
      (processOutgoingMessage (some "tok") (some "606")
          (NetOutcome.resp true none (some "wamid.9")) 0 demoStoreOut 10 5 "hello"
          .text).2.messages = demoStoreOut.messages ++ [m] ∧
      m.direction = .outbound ∧ m.status = statusSent ∧
      m.whatsappMessageId = (sendTextMessage (some "tok") (some "606") "555" "hello"
          (NetOutcome.resp true none (some "wamid.9"))).messageId ∧
      m.content = "hello" ∧ m.conversationId = 10 ∧ m.contactId = 5 := by
  constructor
  · exact (outgoing_persist_iff_send_success (some "tok") (some "606")
      (NetOutcome.resp false none none) 0 demoStoreOut 10 5 "hello" .text
      demoOutContact (by rfl)).1 (by rfl)
  · exact (outgoing_persist_iff_send_success (some "tok") (some "606")
      (NetOutcome.resp true none (some "wamid.9")) 0 demoStoreOut 10 5 "hello" .text
      demoOutContact (by rfl)).2 (by rfl)

/-- C6: on a successful bot run, escalation is decided exactly by the fixed
keyword list over the lowercased inbound content; it only appends the canned
handoff phrase to the generated response (the recorded interaction carries
`wasEscalated` equal to that decision) and never changes which response is
selected or the conversation/contact the reply is addressed to. -/
theorem escalation_appends_handoff_only (a p : Option String) (e mid : Option String)
    (t0 t1 now : Nat) (st : Store) (chatbotId : Nat) (contact : Contact)
    (message : Message) (conversation : Conversation) (cb : Chatbot) (ct : Contact)
    (hcb : getChatbot st chatbotId = some cb)
    (hact : cb.isActive = true)
    (hct : getContact st contact.id = some ct)
    (hcred : validateCredentials a p = true) :
    (processBotResponse a p (NetOutcome.resp true e mid) t0 t1 now st chatbotId
        contact message conversation).1 = .ok true ∧
    (shouldEscalateToHuman message.content cb = true ↔
      escalationKeywords.any (fun k => jsIncludes (jsToLower message.content) k) = true) ∧
    (∃ botMsg : Message,
      botMsg ∈ (processBotResponse a p (NetOutcome.resp true e mid) t0 t1 now st
          chatbotId contact message conversation).2.messages ∧
      botMsg.content = (if shouldEscalateToHuman message.content cb then
          (generateResponse cb message.content).getD "" ++ escalationSuffix
        else (generateResponse cb message.content).getD "") ∧
      botMsg.conversationId = conversation.id ∧
      botMsg.contactId = contact.id ∧
      botMsg.direction = .outbound ∧
      botMsg.isFromBot = true ∧
      ∃ rec : BotInteraction,
        (processBotResponse a p (NetOutcome.resp true e mid) t0 t1 now st chatbotId
            contact message conversation).2.interactions = st.interactions ++ [rec] ∧
        rec.wasEscalated = shouldEscalateToHuman message.content cb ∧
        rec.response = botMsg.content ∧
        rec.trigger = message.content ∧
        rec.chatbotId = chatbotId ∧ rec.contactId = contact.id ∧
        rec.messageId = message.id ∧ rec.responseTime = t1 - t0) := by
  obtain ⟨resp0, hresp⟩ : ∃ r, generateResponse cb message.content = some r := by
    cases h : generateResponse cb message.content with
    | none =>
      have hs := generateResponse_isSome cb message.content
      rw [h] at hs
      simp at hs
    | some r => exact ⟨r, rfl⟩
  unfold processBotResponse
  rw [hcb]
  simp only [hact, Bool.not_true, Bool.false_eq_true, if_false]
  rw [hresp]
  simp only []
  rw [processOutgoing_success_eq a p e mid now st conversation.id contact.id
    (if shouldEscalateToHuman message.content cb then resp0 ++ escalationSuffix
      else resp0) .text ct hct hcred]
  simp only [updateMessageIsFromBot, createBotInteraction]
  refine ⟨by trivial, by simp [shouldEscalateToHuman], ?_⟩
  refine ⟨{ outboundRecord st conversation.id contact.id mid
      (if shouldEscalateToHuman message.content cb then resp0 ++ escalationSuffix
        else resp0) .text with isFromBot := true }, ?_, rfl, rfl, rfl, rfl, rfl, ?_⟩
  · rw [touchConversation_messages]
    refine List.mem_map.mpr
      ⟨outboundRecord st conversation.id contact.id mid
        (if shouldEscalateToHuman message.content cb then resp0 ++ escalationSuffix
          else resp0) .text, by simp, ?_⟩
    simp
  · exact ⟨_, by rw [touchConversation_interactions], rfl, rfl, rfl, rfl, rfl, rfl, rfl⟩

/-- C6 witness: a message containing the escalation keyword
`hablar con persona` (and the pricing keyword) drives a successful bot run,
and the escalation predicate fires on it. -/
theorem escalation_appends_handoff_only_witness :
    (processBotResponse (some "tok") (some "606")
        (NetOutcome.resp true none (some "wamid.b")) 0 3 0 demoBotStore 9
        demoOutContact demoInMsg demoConv2).1 = .ok true ∧
    shouldEscalateToHuman demoInMsg.content demoBot = true := by
  constructor
  · exact (escalation_appends_handoff_only (some "tok") (some "606") none
      (some "wamid.b") 0 3 0 demoBotStore 9 demoOutContact demoInMsg demoConv2
      demoBot demoOutContact (by rfl) (by rfl) (by rfl) (by decide)).1
  · decide

/-- C3: starting from a store with no contact for the phone under the
account's owner (and DB-consistent conversation ids), processing two inbound
messages from that phone sequentially leaves exactly one matching contact and
exactly one conversation attached to it. -/
theorem two_sequential_inbound_single_contact_conversation
    (fetch : String → Option String) (st0 : Store) (accountId : Nat)
    (acct : WhatsappAccount) (im1 im2 : IncomingWhatsAppMessage) (phone : String)
    (hacc : getWhatsappAccount st0 accountId = some acct)
    (hbound : ∀ v ∈ st0.conversations, v.id < st0.nextId ∧ v.contactId < st0.nextId)
    (hnone : getContactByPhone st0 phone acct.userId = none)
    (h1 : im1.msgFrom = phone) (h2 : im2.msgFrom = phone) :
    ∃ c : Contact,
      getContactByPhone
          (processIncomingMessage fetch
            (processIncomingMessage fetch st0 accountId im1).2 accountId im2).2
          phone acct.userId = some c ∧
      ((processIncomingMessage fetch
          (processIncomingMessage fetch st0 accountId im1).2 accountId
          im2).2.contacts.filter
        (fun x => x.phone == phone && x.userId == acct.userId)).length = 1 ∧
      ((processIncomingMessage fetch
          (processIncomingMessage fetch st0 accountId im1).2 accountId
          im2).2.conversations.filter
        (fun v => v.contactId == c.id)).length = 1 := by
  subst h1
  have hnone' : st0.contacts.find?
      (fun c => c.phone == im1.msgFrom && c.userId == acct.userId) = none := hnone
  have hcv1 : getConversationByContact st0 st0.nextId = none := by
    refine List.find?_eq_none.mpr ?_
    intro v hv
    have hlt := (hbound v hv).2
    simp only [beq_iff_eq]
    exact Nat.ne_of_lt hlt
  have hingest1 := ingest_new_contact_new_conv fetch st0 accountId acct.userId im1
    (by exact hnone) hcv1
  have hacc3 : getWhatsappAccount
      (ingestForUser fetch st0 accountId acct.userId im1).2 accountId = some acct := by
    rw [hingest1]
    exact hacc
  have hct2 : getContactByPhone
      (ingestForUser fetch st0 accountId acct.userId im1).2 im2.msgFrom acct.userId
      = some (firstContact st0 accountId acct.userId im1.msgFrom) := by
    rw [hingest1]
    show (st0.contacts ++ [firstContact st0 accountId acct.userId im1.msgFrom]).find?
        (fun c => c.phone == im2.msgFrom && c.userId == acct.userId)
      = some (firstContact st0 accountId acct.userId im1.msgFrom)
    rw [h2, List.find?_append, hnone']
    simp [firstContact]
  have hingest2 := ingest_existing_contact fetch
    (ingestForUser fetch st0 accountId acct.userId im1).2 accountId acct.userId im2
    _ hct2
  rw [processIncoming_of_acct fetch st0 accountId acct im1 hacc,
    processIncoming_of_acct fetch _ accountId acct im2 hacc3, hingest2, hingest1]
  refine ⟨firstContact st0 accountId acct.userId im1.msgFrom, ?_, ?_, ?_⟩
  · show (st0.contacts ++ [firstContact st0 accountId acct.userId im1.msgFrom]).find?
        (fun c => c.phone == im1.msgFrom && c.userId == acct.userId)
      = some (firstContact st0 accountId acct.userId im1.msgFrom)
    rw [List.find?_append, hnone']
    simp [firstContact]
  · show ((st0.contacts ++ [firstContact st0 accountId acct.userId im1.msgFrom]).filter
        (fun x => x.phone == im1.msgFrom && x.userId == acct.userId)).length = 1
    rw [List.filter_append]
    have hnil : st0.contacts.filter
        (fun x => x.phone == im1.msgFrom && x.userId == acct.userId) = [] := by
      refine List.filter_eq_nil_iff.mpr ?_
      intro a ha
      exact List.find?_eq_none.mp hnone' a ha
    rw [hnil]
    simp [firstContact]
  · show ((st0.conversations ++ [firstConv st0 accountId acct.userId]).filter
        (fun v =>
          v.contactId == (firstContact st0 accountId acct.userId im1.msgFrom).id)).length
      = 1
    rw [List.filter_append]
    have hnil : st0.conversations.filter
        (fun v =>
          v.contactId == (firstContact st0 accountId acct.userId im1.msgFrom).id)
        = [] := by
      refine List.filter_eq_nil_iff.mpr ?_
      intro v hv
      have hlt := (hbound v hv).2
      simp only [firstContact, beq_iff_eq]
      exact Nat.ne_of_lt hlt
    rw [hnil]
    simp [firstContact, firstConv]

/-- C3 witness: two concrete inbound messages from `5551234` into an empty
store leave exactly one matching contact and one conversation. -/
theorem two_sequential_inbound_single_witness :
    ∃ c : Contact,
      getContactByPhone
          (processIncomingMessage noFetch
            (processIncomingMessage noFetch demoStore 2 demoIncoming).2 2
            demoIncoming2).2 "5551234" 7 = some c ∧
      ((processIncomingMessage noFetch
          (processIncomingMessage noFetch demoStore 2 demoIncoming).2 2
          demoIncoming2).2.contacts.filter
        (fun x => x.phone == "5551234" && x.userId == 7)).length = 1 ∧
      ((processIncomingMessage noFetch
          (processIncomingMessage noFetch demoStore 2 demoIncoming).2 2
          demoIncoming2).2.conversations.filter
        (fun v => v.contactId == c.id)).length = 1 :=
  two_sequential_inbound_single_contact_conversation noFetch demoStore 2
    { id := 2, userId := 7 } demoIncoming demoIncoming2 "5551234" (by rfl)
    (by intro v hv; exact absurd hv (List.not_mem_nil v)) (by rfl) (by rfl) (by rfl)

end WhatsAppBot
